import Mathlib

/-!
Verification of the counter widget in `src/app/page.tsx`.

The widget keeps two pieces of React state, `count` (a JS number, initially
`0`) and `soundEnabled` (a boolean, initially `true`), plus a browser
`localStorage` store with the string keys `counter-value` and
`sound-enabled`.  We embed the observable behaviour shallowly:

* JS numbers reachable here are integers or `NaN` (`parseInt` on malformed
  text), modelled by `JsNum`;
* `localStorage` is modelled by `Store`, two `Option String` cells;
* each click handler is a function on the full widget state; the
  `useEffect` persistence hooks with dependency `[count]` / `[soundEnabled]`
  fire exactly when the corresponding state value changed (React bails out
  of state updates to an identical value, and effect dependencies are
  compared with `Object.is`), which the handlers perform inline, also
  recording the list of store writes they actually issue;
* `playClickSound` receives the outcome of the `audio.play()` promise as a
  `PlayResult` input; the source catches and logs a rejection;
* `mount` is the settled state after the mount-time hydration effect and
  the two persistence effects have run.
-/

/-- A JavaScript number as it can appear in the widget: an integer, or
`NaN` (produced by `parseInt` on text without leading digits). -/
inductive JsNum where
  | nan : JsNum
  | num : Int → JsNum
deriving DecidableEq, Repr

/-- `count + 1` in JS: `NaN + 1 = NaN`. -/
def jsAdd1 : JsNum → JsNum
  | JsNum.nan => JsNum.nan
  | JsNum.num n => JsNum.num (n + 1)

/-- `Math.max(0, count - 1)` in JS: both `NaN - 1` and `Math.max(0, NaN)`
are `NaN`. -/
def jsMax0Pred : JsNum → JsNum
  | JsNum.nan => JsNum.nan
  | JsNum.num n => JsNum.num (max 0 (n - 1))

/-- The character for the decimal digit `d`. -/
def digitChar (d : Nat) : Char := Char.ofNat (48 + d)

/-- Decimal digit expansion of `n`, most significant digit first; `fuel`
bounds the recursion (any `fuel > n` is enough). -/
def natToDigitsAux : Nat → Nat → List Char
  | 0, _ => []
  | fuel + 1, n =>
    if n < 10 then [digitChar n]
    else natToDigitsAux fuel (n / 10) ++ [digitChar (n % 10)]

/-- Decimal rendering of a natural number, as `Number.prototype.toString`
produces it for a non-negative integer. -/
def natToString (n : Nat) : String := ⟨natToDigitsAux (n + 1) n⟩

/-- `Number.prototype.toString` for an integer. -/
def intToString (n : Int) : String :=
  if n < 0 then ("-" : String) ++ natToString n.natAbs else natToString n.natAbs

/-- `count.toString()`. `NaN` renders as the string `NaN`. -/
def jsToString : JsNum → String
  | JsNum.nan => ("NaN" : String)
  | JsNum.num n => intToString n

/-- `soundEnabled.toString()`. -/
def boolToString (b : Bool) : String := if b then ("true" : String) else ("false" : String)

/-- Drop the leading whitespace, as `parseInt` does before scanning. -/
def dropWs : List Char → List Char
  | [] => []
  | c :: cs => if c.isWhitespace then dropWs cs else c :: cs

/-- The maximal run of leading decimal digits. -/
def leadingDigits : List Char → List Char
  | [] => []
  | c :: cs => if c.isDigit then c :: leadingDigits cs else []

/-- Value of a digit string, most significant digit first. -/
def digitsVal (ds : List Char) : Nat :=
  ds.foldl (fun a c => 10 * a + (c.toNat - 48)) 0

/-- Scan digits after the optional sign: no leading digit means `NaN`. -/
def parseIntCore (cs : List Char) (sign : Int) : JsNum :=
  let ds := leadingDigits cs
  if ds = [] then JsNum.nan else JsNum.num (sign * (digitsVal ds : Int))

/-- `parseInt` on a whitespace-stripped character list: optional sign,
then leading digits. -/
def jsParseIntList : List Char → JsNum
  | [] => JsNum.nan
  | c :: cs =>
    if c = '-' then parseIntCore cs (-1)
    else if c = '+' then parseIntCore cs 1
    else parseIntCore (c :: cs) 1

/-- `parseInt(s, 10)` as the source calls it on the persisted text. -/
def jsParseInt10 (s : String) : JsNum := jsParseIntList (dropWs s.data)

/-- The `localStorage` cells the widget uses: the keys `counter-value`
and `sound-enabled`, each absent (`none`) or holding a string. -/
structure Store where
  counterValue : Option String
  soundEnabled : Option String
deriving DecidableEq, Repr

/-- The full observable state: the two React state variables plus the
external store. -/
structure Widget where
  count : JsNum
  soundEnabled : Bool
  store : Store
deriving DecidableEq, Repr

/-- Outcome of the `audio.play()` promise, an input from the
environment: fulfilled, or rejected with an error message. -/
inductive PlayResult where
  | ok : PlayResult
  | failed : String → PlayResult
deriving DecidableEq, Repr

/-- `playClickSound`: returns early when `soundEnabled` is false;
otherwise creates a fresh audio handle and requests playback, catching
(and merely logging) a rejection.  Returns the widget state after the
call together with whether a playback attempt was made. -/
def playClickSound (w : Widget) (r : PlayResult) : Widget × Bool :=
  if w.soundEnabled then
    match r with
    | PlayResult.ok => (w, true)
    | PlayResult.failed _ => (w, true)
  else (w, false)

/-- Result of one click handler: the new widget state, whether a sound
playback attempt was made, and the `localStorage.setItem` calls issued
(key/value pairs). -/
structure Step where
  widget : Widget
  playAttempted : Bool
  storeWrites : List (String × String)
deriving DecidableEq, Repr

/-- `setCount(c)` followed by the `useEffect(..., [count])` persistence
hook.  React bails out when the new value equals the current one
(`Object.is`), so the effect re-fires — writing `counter-value` — exactly
when the count changed. -/
def setCountAndPersist (w : Widget) (c : JsNum) : Widget × List (String × String) :=
  if c = w.count then (w, [])
  else
    ({ w with
        count := c
        store := { w.store with counterValue := some (jsToString c) } },
      [(("counter-value" : String), jsToString c)])

/-- The `－` button: play the click sound, then `setCount(Math.max(0, count - 1))`. -/
def handleDecrement (r : PlayResult) (w : Widget) : Step :=
  let p := playClickSound w r
  let res := setCountAndPersist p.1 (jsMax0Pred p.1.count)
  { widget := res.1, playAttempted := p.2, storeWrites := res.2 }

/-- The `＋` button: play the click sound, then `setCount(count + 1)`. -/
def handleIncrement (r : PlayResult) (w : Widget) : Step :=
  let p := playClickSound w r
  let res := setCountAndPersist p.1 (jsAdd1 p.1.count)
  { widget := res.1, playAttempted := p.2, storeWrites := res.2 }

/-- The `Reset` button: play the click sound, then `setCount(0)`. -/
def handleReset (r : PlayResult) (w : Widget) : Step :=
  let p := playClickSound w r
  let res := setCountAndPersist p.1 (JsNum.num 0)
  { widget := res.1, playAttempted := p.2, storeWrites := res.2 }

/-- The sound toggle: `setSoundEnabled(!soundEnabled)`, no click sound.
The flag always changes, so the `useEffect(..., [soundEnabled])` hook
always rewrites `sound-enabled`. -/
def handleToggleSound (w : Widget) : Step :=
  let b := !w.soundEnabled
  { widget :=
      { w with
          soundEnabled := b
          store := { w.store with soundEnabled := some (boolToString b) } }
    playAttempted := false
    storeWrites := [(("sound-enabled" : String), boolToString b)] }

/-- Mount-time hydration of `count`: absent key keeps the default `0`,
a present key is fed to `parseInt(·, 10)` unvalidated. -/
def hydratedCount (s : Store) : JsNum :=
  match s.counterValue with
  | none => JsNum.num 0
  | some str => jsParseInt10 str

/-- Mount-time hydration of `soundEnabled`: absent key keeps the default
`true`, a present key is compared against the string `true`. -/
def hydratedSound (s : Store) : Bool :=
  match s.soundEnabled with
  | none => true
  | some str => str == ("true" : String)

/-- The settled widget state after mounting over store `s`: the hydration
effect has run, and the two persistence effects have (re)written both keys
with the current values. -/
def mount (s : Store) : Widget :=
  { count := hydratedCount s
    soundEnabled := hydratedSound s
    store :=
      { counterValue := some (jsToString (hydratedCount s))
        soundEnabled := some (boolToString (hydratedSound s)) } }

/-- A fresh browser profile: neither key present. -/
def initialStore : Store := { counterValue := none, soundEnabled := none }

/-- The widget states reachable from a first visit: the initial mount,
the four click handlers (under any playback outcome), and a reload
(remount over the current store). -/
inductive Reachable : Widget → Prop where
  | init : Reachable (mount initialStore)
  | increment : ∀ (r : PlayResult) (w : Widget), Reachable w →
      Reachable (handleIncrement r w).widget
  | decrement : ∀ (r : PlayResult) (w : Widget), Reachable w →
      Reachable (handleDecrement r w).widget
  | reset : ∀ (r : PlayResult) (w : Widget), Reachable w →
      Reachable (handleReset r w).widget
  | toggle : ∀ (w : Widget), Reachable w → Reachable (handleToggleSound w).widget
  | reload : ∀ (w : Widget), Reachable w → Reachable (mount w.store)

/-- The store mirrors the in-memory state: both keys hold the rendered
current values. -/
def storeSync (w : Widget) : Prop :=
  w.store.counterValue = some (jsToString w.count) ∧
  w.store.soundEnabled = some (boolToString w.soundEnabled)

/-- Remounting over the widget's own store reproduces its in-memory
state. -/
def remountAgrees (w : Widget) : Prop :=
  (mount w.store).count = w.count ∧ (mount w.store).soundEnabled = w.soundEnabled

/-- The reachability invariant: the count is a non-negative integer and
the store mirrors the state. -/
def goodWidget (w : Widget) : Prop :=
  ∃ n : Nat, w.count = JsNum.num (n : Int) ∧
    w.store.counterValue = some (natToString n) ∧
    w.store.soundEnabled = some (boolToString w.soundEnabled)

/-- `n` successive presses of the `＋` button. -/
def iterIncrement (r : PlayResult) : Nat → Widget → Widget
  | 0, w => w
  | n + 1, w => iterIncrement r n (handleIncrement r w).widget

/-! ### Decimal printing and `parseInt` round-trip -/

lemma digitChar_props (d : Nat) (hd : d < 10) :
    (digitChar d).isDigit = true ∧ (digitChar d).isWhitespace = false ∧
    (digitChar d).toNat = 48 + d ∧ digitChar d ≠ '-' ∧ digitChar d ≠ '+' := by
  interval_cases d <;> exact ⟨by decide, by decide, by decide, by decide, by decide⟩

lemma toDigitsAux_ne_nil (fuel n : Nat) (h : n < fuel) :
    natToDigitsAux fuel n ≠ [] := by
  cases fuel with
  | zero => omega
  | succ f =>
    unfold natToDigitsAux
    by_cases h10 : n < 10 <;> simp [h10]

lemma mem_toDigitsAux : ∀ (fuel n : Nat), n < fuel →
    ∀ c ∈ natToDigitsAux fuel n, ∃ d, d < 10 ∧ c = digitChar d := by
  intro fuel
  induction fuel with
  | zero => intro n h; omega
  | succ f ih =>
    intro n h c hc
    unfold natToDigitsAux at hc
    by_cases h10 : n < 10
    · simp [h10] at hc
      exact ⟨n, h10, hc⟩
    · simp [h10, List.mem_append] at hc
      rcases hc with hc | hc
      · exact ih (n / 10) (by omega) c hc
      · exact ⟨n % 10, by omega, hc⟩

lemma digitsVal_append_one (xs : List Char) (c : Char) :
    digitsVal (xs ++ [c]) = 10 * digitsVal xs + (c.toNat - 48) := by
  simp [digitsVal, List.foldl_append]

lemma digitsVal_toDigitsAux : ∀ (fuel n : Nat), n < fuel →
    digitsVal (natToDigitsAux fuel n) = n := by
  intro fuel
  induction fuel with
  | zero => intro n h; omega
  | succ f ih =>
    intro n h
    unfold natToDigitsAux
    by_cases h10 : n < 10
    · obtain ⟨-, -, htn, -, -⟩ := digitChar_props n h10
      simp [h10, digitsVal, htn]
    · obtain ⟨-, -, htn, -, -⟩ := digitChar_props (n % 10) (by omega)
      rw [if_neg h10, digitsVal_append_one, ih (n / 10) (by omega), htn]
      omega

lemma leadingDigits_all (ds : List Char) (h : ∀ c ∈ ds, c.isDigit = true) :
    leadingDigits ds = ds := by
  induction ds with
  | nil => rfl
  | cons c cs ih =>
    rw [leadingDigits, if_pos (h c (List.mem_cons_self c cs))]
    rw [ih fun c hc => h c (List.mem_cons_of_mem _ hc)]

lemma jsParseIntList_digits (ds : List Char) (hne : ds ≠ [])
    (hmem : ∀ c ∈ ds, ∃ d, d < 10 ∧ c = digitChar d) :
    jsParseIntList (dropWs ds) = JsNum.num (digitsVal ds : Int) := by
  cases ds with
  | nil => exact absurd rfl hne
  | cons c cs =>
    have hall : ∀ e ∈ c :: cs, e.isDigit = true := by
      intro e he
      obtain ⟨d, hd, hed⟩ := hmem e he
      rw [hed]
      exact (digitChar_props d hd).1
    obtain ⟨d, hd, hc⟩ := hmem c (List.mem_cons_self c cs)
    obtain ⟨-, hws, -, hminus, hplus⟩ := digitChar_props d hd
    have hdrop : dropWs (c :: cs) = c :: cs := by
      rw [dropWs, if_neg (by rw [hc, hws]; exact Bool.false_ne_true)]
    have hlead := leadingDigits_all (c :: cs) hall
    rw [hdrop, jsParseIntList, if_neg (hc ▸ hminus), if_neg (hc ▸ hplus),
      parseIntCore]
    simp [hlead]

lemma parse_natToString (m : Nat) :
    jsParseInt10 (natToString m) = JsNum.num (m : Int) := by
  have hlt : m < m + 1 := Nat.lt_succ_self m
  have h := jsParseIntList_digits (natToDigitsAux (m + 1) m)
    (toDigitsAux_ne_nil (m + 1) m hlt) (mem_toDigitsAux (m + 1) m hlt)
  rw [jsParseInt10, natToString]
  rw [show (String.mk (natToDigitsAux (m + 1) m)).data = natToDigitsAux (m + 1) m from rfl]
  rw [h, digitsVal_toDigitsAux (m + 1) m hlt]

lemma data_natToString (m : Nat) :
    (natToString m).data = natToDigitsAux (m + 1) m := rfl

lemma jsToString_ofNat (n : Nat) :
    jsToString (JsNum.num (n : Int)) = natToString n := by
  rw [jsToString, intToString, if_neg (by omega), Int.natAbs_ofNat]

lemma jsToString_roundtrip (x : JsNum) : jsParseInt10 (jsToString x) = x := by
  cases x with
  | nan => decide
  | num n =>
    by_cases hneg : n < 0
    · rw [jsToString, intToString, if_pos hneg]
      have hlt : n.natAbs < n.natAbs + 1 := Nat.lt_succ_self _
      have hne := toDigitsAux_ne_nil (n.natAbs + 1) n.natAbs hlt
      have hmem := mem_toDigitsAux (n.natAbs + 1) n.natAbs hlt
      have hdata : (("-" : String) ++ natToString n.natAbs).data =
          '-' :: natToDigitsAux (n.natAbs + 1) n.natAbs := rfl
      rw [jsParseInt10, hdata]
      have hdrop : dropWs ('-' :: natToDigitsAux (n.natAbs + 1) n.natAbs) =
          '-' :: natToDigitsAux (n.natAbs + 1) n.natAbs := by
        rw [dropWs, if_neg (by decide)]
      have hall : ∀ e ∈ natToDigitsAux (n.natAbs + 1) n.natAbs, e.isDigit = true := by
        intro e he
        obtain ⟨d, hd, hed⟩ := hmem e he
        rw [hed]
        exact (digitChar_props d hd).1
      have hlead := leadingDigits_all _ hall
      rw [hdrop, jsParseIntList, if_pos rfl, parseIntCore]
      simp only [hlead]
      rw [if_neg hne, digitsVal_toDigitsAux (n.natAbs + 1) n.natAbs hlt]
      congr 1
      omega
    · have hn : (n.toNat : Int) = n := Int.toNat_of_nonneg (by omega)
      rw [show JsNum.num n = JsNum.num ((n.toNat : Nat) : Int) from by rw [hn]]
      rw [jsToString_ofNat, parse_natToString]

lemma sound_roundtrip (b : Bool) : ((boolToString b) == ("true" : String)) = b := by
  cases b <;> decide

/-! ### Handler-level lemmas -/

lemma playClickSound_fst (w : Widget) (r : PlayResult) :
    (playClickSound w r).1 = w := by
  cases r <;> by_cases h : w.soundEnabled <;> simp [playClickSound, h]

lemma playClickSound_snd (w : Widget) (r : PlayResult) :
    (playClickSound w r).2 = w.soundEnabled := by
  cases r <;> by_cases h : w.soundEnabled <;> simp [playClickSound, h]

lemma setCountAndPersist_count (w : Widget) (c : JsNum) :
    (setCountAndPersist w c).1.count = c := by
  by_cases h : c = w.count
  · rw [setCountAndPersist, if_pos h, h]
  · rw [setCountAndPersist, if_neg h]

lemma setCountAndPersist_soundEnabled (w : Widget) (c : JsNum) :
    (setCountAndPersist w c).1.soundEnabled = w.soundEnabled := by
  by_cases h : c = w.count
  · rw [setCountAndPersist, if_pos h]
  · rw [setCountAndPersist, if_neg h]

lemma setCountAndPersist_store_sound (w : Widget) (c : JsNum) :
    (setCountAndPersist w c).1.store.soundEnabled = w.store.soundEnabled := by
  by_cases h : c = w.count
  · rw [setCountAndPersist, if_pos h]
  · rw [setCountAndPersist, if_neg h]

lemma setCountAndPersist_sync (w : Widget) (c : JsNum)
    (h : w.store.counterValue = some (jsToString w.count)) :
    (setCountAndPersist w c).1.store.counterValue =
      some (jsToString (setCountAndPersist w c).1.count) := by
  by_cases hc : c = w.count
  · rw [setCountAndPersist, if_pos hc]
    exact h
  · rw [setCountAndPersist, if_neg hc]

lemma handleIncrement_widget (r : PlayResult) (w : Widget) :
    (handleIncrement r w).widget = (setCountAndPersist w (jsAdd1 w.count)).1 := by
  rw [handleIncrement, playClickSound_fst]

lemma handleDecrement_widget (r : PlayResult) (w : Widget) :
    (handleDecrement r w).widget = (setCountAndPersist w (jsMax0Pred w.count)).1 := by
  rw [handleDecrement, playClickSound_fst]

lemma handleReset_widget (r : PlayResult) (w : Widget) :
    (handleReset r w).widget = (setCountAndPersist w (JsNum.num 0)).1 := by
  rw [handleReset, playClickSound_fst]

lemma handleIncrement_count (r : PlayResult) (w : Widget) :
    (handleIncrement r w).widget.count = jsAdd1 w.count := by
  rw [handleIncrement_widget, setCountAndPersist_count]

lemma handleDecrement_count (r : PlayResult) (w : Widget) :
    (handleDecrement r w).widget.count = jsMax0Pred w.count := by
  rw [handleDecrement_widget, setCountAndPersist_count]

lemma handleReset_count (r : PlayResult) (w : Widget) :
    (handleReset r w).widget.count = JsNum.num 0 := by
  rw [handleReset_widget, setCountAndPersist_count]

lemma handleIncrement_attempted (r : PlayResult) (w : Widget) :
    (handleIncrement r w).playAttempted = w.soundEnabled := by
  rw [handleIncrement, playClickSound_snd]

lemma handleDecrement_attempted (r : PlayResult) (w : Widget) :
    (handleDecrement r w).playAttempted = w.soundEnabled := by
  rw [handleDecrement, playClickSound_snd]

lemma handleReset_attempted (r : PlayResult) (w : Widget) :
    (handleReset r w).playAttempted = w.soundEnabled := by
  rw [handleReset, playClickSound_snd]

/-! ### Store synchronisation and the reachability invariant -/

lemma remount_of_sync (w : Widget) (h : storeSync w) : remountAgrees w := by
  obtain ⟨h1, h2⟩ := h
  constructor
  · show hydratedCount w.store = w.count
    simp [hydratedCount, h1, jsToString_roundtrip]
  · show hydratedSound w.store = w.soundEnabled
    simp [hydratedSound, h2, sound_roundtrip]

lemma storeSync_setCountAndPersist (w : Widget) (c : JsNum) (h : storeSync w) :
    storeSync (setCountAndPersist w c).1 := by
  obtain ⟨h1, h2⟩ := h
  refine ⟨setCountAndPersist_sync w c h1, ?_⟩
  rw [setCountAndPersist_store_sound, setCountAndPersist_soundEnabled]
  exact h2

lemma storeSync_increment (r : PlayResult) (w : Widget) (h : storeSync w) :
    storeSync (handleIncrement r w).widget := by
  rw [handleIncrement_widget]
  exact storeSync_setCountAndPersist w (jsAdd1 w.count) h

lemma storeSync_decrement (r : PlayResult) (w : Widget) (h : storeSync w) :
    storeSync (handleDecrement r w).widget := by
  rw [handleDecrement_widget]
  exact storeSync_setCountAndPersist w (jsMax0Pred w.count) h

lemma storeSync_reset (r : PlayResult) (w : Widget) (h : storeSync w) :
    storeSync (handleReset r w).widget := by
  rw [handleReset_widget]
  exact storeSync_setCountAndPersist w (JsNum.num 0) h

lemma storeSync_toggle (w : Widget) (h : storeSync w) :
    storeSync (handleToggleSound w).widget := by
  obtain ⟨h1, h2⟩ := h
  exact ⟨h1, rfl⟩

lemma goodWidget_init : goodWidget (mount initialStore) :=
  ⟨0, by decide, by decide, by decide⟩

lemma goodWidget_mount (w : Widget) (h : goodWidget w) : goodWidget (mount w.store) := by
  obtain ⟨n, hc, hcv, hse⟩ := h
  have hcount : hydratedCount w.store = JsNum.num (n : Int) := by
    simp [hydratedCount, hcv, parse_natToString]
  refine ⟨n, hcount, ?_, rfl⟩
  show some (jsToString (hydratedCount w.store)) = some (natToString n)
  rw [hcount, jsToString_ofNat]

lemma goodWidget_setCount (w : Widget) (c : JsNum) (m : Nat)
    (h : goodWidget w) (hc : c = JsNum.num (m : Int)) :
    goodWidget (setCountAndPersist w c).1 := by
  by_cases he : c = w.count
  · rw [setCountAndPersist, if_pos he]
    exact h
  · obtain ⟨n, h1, h2, h3⟩ := h
    rw [setCountAndPersist, if_neg he]
    exact ⟨m, hc, by rw [hc, jsToString_ofNat], h3⟩

lemma goodWidget_increment (r : PlayResult) (w : Widget) (h : goodWidget w) :
    goodWidget (handleIncrement r w).widget := by
  obtain ⟨n, h1, h2, h3⟩ := h
  rw [handleIncrement_widget]
  refine goodWidget_setCount w (jsAdd1 w.count) (n + 1) ⟨n, h1, h2, h3⟩ ?_
  rw [h1, jsAdd1]
  exact congrArg JsNum.num (by omega)

lemma goodWidget_decrement (r : PlayResult) (w : Widget) (h : goodWidget w) :
    goodWidget (handleDecrement r w).widget := by
  obtain ⟨n, h1, h2, h3⟩ := h
  rw [handleDecrement_widget]
  refine goodWidget_setCount w (jsMax0Pred w.count) (n - 1) ⟨n, h1, h2, h3⟩ ?_
  rw [h1, jsMax0Pred]
  exact congrArg JsNum.num (by omega)

lemma goodWidget_reset (r : PlayResult) (w : Widget) (h : goodWidget w) :
    goodWidget (handleReset r w).widget := by
  rw [handleReset_widget]
  refine goodWidget_setCount w (JsNum.num 0) 0 h ?_
  norm_num

lemma goodWidget_toggle (w : Widget) (h : goodWidget w) :
    goodWidget (handleToggleSound w).widget := by
  obtain ⟨n, h1, h2, h3⟩ := h
  exact ⟨n, h1, h2, rfl⟩

lemma reachable_good (w : Widget) (h : Reachable w) : goodWidget w := by
  induction h with
  | init => exact goodWidget_init
  | increment r w1 hw ih => exact goodWidget_increment r w1 ih
  | decrement r w1 hw ih => exact goodWidget_decrement r w1 ih
  | reset r w1 hw ih => exact goodWidget_reset r w1 ih
  | toggle w1 hw ih => exact goodWidget_toggle w1 ih
  | reload w1 hw ih => exact goodWidget_mount w1 ih

lemma iterIncrement_count (r : PlayResult) :
    ∀ (n : Nat) (w : Widget) (k : Int), w.count = JsNum.num k →
      (iterIncrement r n w).count = JsNum.num (k + (n : Int)) := by
  intro n
  induction n with
  | zero =>
    intro w k hk
    rw [iterIncrement, hk]
    norm_num
  | succ m ih =>
    intro w k hk
    rw [iterIncrement]
    have h1 : (handleIncrement r w).widget.count = JsNum.num (k + 1) := by
      rw [handleIncrement_count, hk, jsAdd1]
    rw [ih _ _ h1]
    congr 1
    push_cast
    ring

lemma handleDecrement_writes (r : PlayResult) (w : Widget) :
    (handleDecrement r w).storeWrites = (setCountAndPersist w (jsMax0Pred w.count)).2 := by
  rw [handleDecrement, playClickSound_fst]

/-! ### The claims -/

/-- Claim C1: every reachable widget state has a non-negative integer
count; the invariant is preserved by increment, decrement, reset,
toggleSound and by the mount-time adoption of the persisted
`counter-value` — these are exactly the steps of `Reachable`. -/
theorem c1_count_nonneg (w : Widget) (h : Reachable w) :
    (∃ n : Nat, w.count = JsNum.num (n : Int)) ∧
    ∀ k : Int, w.count = JsNum.num k → 0 ≤ k := by
  obtain ⟨n, h1, -, -⟩ := reachable_good w h
  refine ⟨⟨n, h1⟩, ?_⟩
  intro k hk
  rw [h1] at hk
  have hin := JsNum.num.inj hk
  omega

theorem c1_count_nonneg_witness :
    (∃ n : Nat, (mount initialStore).count = JsNum.num (n : Int)) ∧
    ∀ k : Int, (mount initialStore).count = JsNum.num k → 0 ≤ k :=
  c1_count_nonneg (mount initialStore) Reachable.init

/-- Claim C2: `handleDecrement` sets the count to `max(0, count − 1)`:
from `k > 0` it yields `k − 1`, from `0` it leaves `0`, and from any
non-negative count the result is never negative. -/
theorem c2_decrement_clamps (r : PlayResult) (w : Widget) (k : Int)
    (h : w.count = JsNum.num k) :
    (handleDecrement r w).widget.count = JsNum.num (max 0 (k - 1)) ∧
    (0 < k → (handleDecrement r w).widget.count = JsNum.num (k - 1)) ∧
    (k = 0 → (handleDecrement r w).widget.count = JsNum.num 0) ∧
    (0 ≤ k → ∃ m : Int, (handleDecrement r w).widget.count = JsNum.num m ∧ 0 ≤ m) := by
  have hc : (handleDecrement r w).widget.count = JsNum.num (max 0 (k - 1)) := by
    rw [handleDecrement_count, h, jsMax0Pred]
  refine ⟨hc, ?_, ?_, ?_⟩
  · intro hk
    rw [hc]
    exact congrArg JsNum.num (by omega)
  · intro hk
    rw [hc]
    exact congrArg JsNum.num (by omega)
  · intro hk
    exact ⟨max 0 (k - 1), hc, by omega⟩

theorem c2_decrement_clamps_witness :
    (handleDecrement PlayResult.ok (Widget.mk (JsNum.num 5) true initialStore)).widget.count
      = JsNum.num (5 - 1) :=
  (c2_decrement_clamps PlayResult.ok (Widget.mk (JsNum.num 5) true initialStore) 5 rfl).2.1
    (by norm_num)

/-- Claim C3: `handleIncrement` sets the count to `count + 1` (total, no
upper bound), and `n` presses of `＋` starting from count `0` yield
count `n`. -/
theorem c3_increment (r : PlayResult) (w : Widget) (k : Int)
    (h : w.count = JsNum.num k) :
    (handleIncrement r w).widget.count = JsNum.num (k + 1) ∧
    (∀ n : Nat, (iterIncrement r n w).count = JsNum.num (k + (n : Int))) ∧
    (k = 0 → ∀ n : Nat, (iterIncrement r n w).count = JsNum.num (n : Int)) := by
  refine ⟨?_, fun n => iterIncrement_count r n w k h, ?_⟩
  · rw [handleIncrement_count, h, jsAdd1]
  · intro hk n
    rw [iterIncrement_count r n w k h]
    exact congrArg JsNum.num (by omega)

theorem c3_increment_witness :
    (iterIncrement PlayResult.ok 3 (mount initialStore)).count = JsNum.num ((3 : Nat) : Int) :=
  (c3_increment PlayResult.ok (mount initialStore) 0 rfl).2.2 rfl 3

/-- Claim C4: `handleReset` sets the count to `0` unconditionally, from
every state (reachable or not), and always succeeds (it is total). -/
theorem c4_reset_zero (r : PlayResult) (w : Widget) :
    (handleReset r w).widget.count = JsNum.num 0 :=
  handleReset_count r w

/-- Claim C5: `handleToggleSound` negates `soundEnabled`, and applying it
twice restores the original value. -/
theorem c5_toggle_involutive (w : Widget) :
    (handleToggleSound w).widget.soundEnabled = !w.soundEnabled ∧
    (handleToggleSound (handleToggleSound w).widget).widget.soundEnabled = w.soundEnabled := by
  refine ⟨rfl, ?_⟩
  show (!(!w.soundEnabled)) = w.soundEnabled
  exact Bool.not_not w.soundEnabled

/-- Claim C6: from a state whose store mirrors it, each of the four
operations leaves the persisted keys equal to the new in-memory values
(`storeSync`: `counter-value` holds the decimal string of the count,
`sound-enabled` holds `true`/`false`), and remounting over the resulting
store reproduces the same `(count, soundEnabled)` pair. -/
theorem c6_persist_roundtrip (r : PlayResult) (w : Widget) (h : storeSync w) :
    (storeSync (handleIncrement r w).widget ∧ remountAgrees (handleIncrement r w).widget) ∧
    (storeSync (handleDecrement r w).widget ∧ remountAgrees (handleDecrement r w).widget) ∧
    (storeSync (handleReset r w).widget ∧ remountAgrees (handleReset r w).widget) ∧
    (storeSync (handleToggleSound w).widget ∧ remountAgrees (handleToggleSound w).widget) := by
  have hi := storeSync_increment r w h
  have hd := storeSync_decrement r w h
  have hr := storeSync_reset r w h
  have ht := storeSync_toggle w h
  exact ⟨⟨hi, remount_of_sync _ hi⟩, ⟨hd, remount_of_sync _ hd⟩,
    ⟨hr, remount_of_sync _ hr⟩, ⟨ht, remount_of_sync _ ht⟩⟩

theorem c6_persist_roundtrip_witness :
    storeSync (handleIncrement PlayResult.ok (mount initialStore)).widget ∧
    remountAgrees (handleIncrement PlayResult.ok (mount initialStore)).widget :=
  (c6_persist_roundtrip PlayResult.ok (mount initialStore) ⟨rfl, rfl⟩).1

/-- Claim C7: on mount an absent key keeps the default (`count = 0`,
`soundEnabled = true`); a present `counter-value` is parsed with
`parseInt(·, 10)` and adopted without validation, so text without leading
digits silently yields the non-numeric `NaN`. -/
theorem c7_mount_hydration (str : String) (co so : Option String) :
    (mount (Store.mk none so)).count = JsNum.num 0 ∧
    (mount (Store.mk co none)).soundEnabled = true ∧
    (mount (Store.mk (some str) so)).count = jsParseInt10 str ∧
    (mount (Store.mk (some ("abc" : String)) so)).count = JsNum.nan ∧
    (mount initialStore).count = JsNum.num 0 ∧
    (mount initialStore).soundEnabled = true := by
  refine ⟨rfl, rfl, rfl, ?_, rfl, rfl⟩
  show jsParseInt10 ("abc" : String) = JsNum.nan
  decide

/-- Claim C8: `playClickSound` is a no-op when sound is disabled (state
unchanged, no playback attempt); after toggling sound off, increment
makes no playback attempt; and a rejected playback is caught — a state
change never results from it. -/
theorem c8_play_guard (w : Widget) (c : JsNum) (s : Store) (r : PlayResult) (msg : String) :
    playClickSound (Widget.mk c false s) r = (Widget.mk c false s, false) ∧
    (playClickSound w r).1 = w ∧
    (playClickSound (Widget.mk c true s) (PlayResult.failed msg)).1 = Widget.mk c true s ∧
    (playClickSound (Widget.mk c true s) (PlayResult.failed msg)).2 = true ∧
    (handleIncrement r (handleToggleSound (Widget.mk c true s)).widget).playAttempted = false := by
  refine ⟨?_, playClickSound_fst w r, rfl, rfl, ?_⟩
  · cases r <;> rfl
  · rw [handleIncrement_attempted]
    rfl

/-- Claim C9 (counterexample): pressing `－` at count `0` does NOT issue
any `localStorage.setItem` call: the new count equals the old one, React
bails out, and the `[count]` persistence effect is not re-fired — the
handler's write list is empty rather than a rewrite of `counter-value`. -/
theorem c9_no_write_cex :
    (handleDecrement PlayResult.ok (mount initialStore)).widget.count = JsNum.num 0 ∧
    (handleDecrement PlayResult.ok (mount initialStore)).storeWrites = [] ∧
    (handleDecrement PlayResult.ok (mount initialStore)).storeWrites ≠
      [(("counter-value" : String), ("0" : String))] := by
  exact ⟨by decide, by decide, by decide⟩

/-- Claim C9 (amended): pressing `－` at count `0` leaves the count `0`
and leaves the persisted `counter-value` key holding the string `0`, but
issues no new persistence write (the count is unchanged, so the
`[count]` effect does not re-run); the click sound is still triggered
when enabled. -/
theorem c9_decrement_at_zero (r : PlayResult) (w : Widget)
    (h : w.count = JsNum.num 0) (hs : w.store.counterValue = some (("0" : String))) :
    (handleDecrement r w).widget.count = JsNum.num 0 ∧
    (handleDecrement r w).widget.store.counterValue = some (("0" : String)) ∧
    (handleDecrement r w).storeWrites = [] ∧
    (handleDecrement r w).playAttempted = w.soundEnabled := by
  have harg : jsMax0Pred w.count = w.count := by
    rw [h]
    decide
  have hwid : (handleDecrement r w).widget = w := by
    rw [handleDecrement_widget, setCountAndPersist, if_pos harg]
  refine ⟨?_, ?_, ?_, handleDecrement_attempted r w⟩
  · rw [hwid, h]
  · rw [hwid, hs]
  · rw [handleDecrement_writes, setCountAndPersist, if_pos harg]

theorem c9_decrement_at_zero_witness :
    (handleDecrement PlayResult.ok (mount initialStore)).widget.store.counterValue
      = some (("0" : String)) :=
  (c9_decrement_at_zero PlayResult.ok (mount initialStore) (by decide) (by decide)).2.1

/-- Claim C10: `handleToggleSound` mutates only the sound flag — the
count and the persisted `counter-value` key are untouched and no
playback is attempted — whereas the three count handlers all invoke
`playClickSound`, attempting playback exactly when sound is enabled. -/
theorem c10_toggle_frame (w : Widget) (r : PlayResult) :
    (handleToggleSound w).widget.count = w.count ∧
    (handleToggleSound w).widget.store.counterValue = w.store.counterValue ∧
    (handleToggleSound w).playAttempted = false ∧
    (handleIncrement r w).playAttempted = (playClickSound w r).2 ∧
    (handleDecrement r w).playAttempted = (playClickSound w r).2 ∧
    (handleReset r w).playAttempted = (playClickSound w r).2 := by
  refine ⟨rfl, rfl, rfl, ?_, ?_, ?_⟩
  · rw [handleIncrement_attempted, playClickSound_snd]
  · rw [handleDecrement_attempted, playClickSound_snd]
  · rw [handleReset_attempted, playClickSound_snd]
